import Mathlib

/-!
Shallow embedding of the test-progression and scoring engine of the
`test_school` repository (backend models `TestSession.ts`, `User.ts`,
`Question.ts` and the test controller `startTest` / `submitAnswer` /
`completeTest`), together with proofs settling the frozen claims about it.

Conventions: Mongo ObjectIds become `Nat` identifiers, `Date` values become
`Int` milliseconds, the document stores become lists, and each controller
becomes a pure function from the stores and the request to an
`Except ApiError` result carrying the updated stores and the response body.
-/

namespace TestSchool

/-- The six certification levels (`AssessmentLevel` in `types/index.ts`). -/
inductive AssessmentLevel
  | A1 | A2 | B1 | B2 | C1 | C2
deriving DecidableEq, Repr

/-- Test session status (`TestStatus` in `types/index.ts`). -/
inductive TestStatus
  | notStarted | inProgress | completed | failed | timeExpired
deriving DecidableEq, Repr

/-- One answer option of a question (entries of `Question.options`). -/
structure AnswerOption where
  text : String
  isCorrect : Bool
deriving DecidableEq, Repr

/-- A question document (`Question.ts`); only the fields the controllers
read are kept.  The controller queries questions by a `step` field
(`Question.find({ step, isActive: true })`), which we carry directly. -/
structure Question where
  id : Nat
  step : Nat
  options : List AnswerOption
  isActive : Bool
deriving DecidableEq, Repr

/-- One recorded answer tuple (entries of `TestSession.answers`). -/
structure Answer where
  questionId : Nat
  selectedOption : Nat
  isCorrect : Bool
  timeSpent : Nat
deriving DecidableEq, Repr

/-- A test session document (`TestSession.ts`).  `startTime` is in
milliseconds, `timeLimit` in minutes, `percentage` the integer produced by
`Math.round`. -/
structure TestSession where
  id : Nat
  userId : Nat
  step : Nat
  questions : List Nat
  answers : List Answer
  startTime : Int
  endTime : Option Int
  timeLimit : Nat
  status : TestStatus
  score : Nat
  percentage : Nat
  levelAchieved : Option AssessmentLevel
  canProceedToNext : Bool
deriving DecidableEq, Repr

/-- A user document (`User.ts`); only the standing fields the test engine
touches are kept. -/
structure User where
  id : Nat
  currentLevel : Option AssessmentLevel
  canTakeTest : Bool
  lastTestAttempt : Option Int
deriving DecidableEq, Repr

/-- The error outcomes of the three controllers (the `AppError`s thrown in
the test controller, plus validation rejection). -/
inductive ApiError
  | userNotFound
  | notEligible
  | noQuestionsAvailable
  | sessionNotFoundOrNotActive
  | questionNotFound
  | questionNotInSession
deriving DecidableEq, Repr

/-- Response body of `submitAnswer`. -/
structure SubmitAck where
  questionId : Nat
  isCorrect : Bool
  totalAnswered : Nat
  totalQuestions : Nat
deriving DecidableEq, Repr

/-- Response body of `completeTest` (the fields the claims mention). -/
structure TestOutcome where
  score : Nat
  percentage : Nat
  levelAchieved : Option AssessmentLevel
  canProceedToNext : Bool
  totalQuestions : Nat
deriving DecidableEq, Repr

/-- Result of `startTest`: HTTP 200 with the existing session (idempotent
resume) or HTTP 201 with a freshly created one. -/
inductive StartResult
  | resumed (s : TestSession)
  | started (s : TestSession)
deriving DecidableEq, Repr

/-- JavaScript `Math.round((c / t) * 100)` for natural `c`, `t` with
`t > 0`: `Math.round x = ⌊x + 1/2⌋` for nonnegative `x`, so the result is
`⌊(200c + t) / (2t)⌋` in integer arithmetic. -/
def jsRound100 (c t : Nat) : Nat := (200 * c + t) / (2 * t)

/-- `this.answers.filter(a => a.isCorrect).length` from the pre-save hook. -/
def countCorrect (answers : List Answer) : Nat :=
  (answers.filter (fun a => a.isCorrect)).length

/-- `testSessionSchema.methods.determineLevelAndProgression`
(TestSession.ts lines 109-158): a switch on `this.step` whose branches set
`levelAchieved` and `canProceedToNext` from `this.percentage`; a step
outside 1..3 hits no case and leaves the fields unchanged. -/
def determineLevelAndProgression (s : TestSession) : TestSession :=
  match s.step with
  | 1 =>
    if s.percentage < 25 then
      { s with levelAchieved := none, canProceedToNext := false }
    else if s.percentage < 50 then
      { s with levelAchieved := some AssessmentLevel.A1, canProceedToNext := false }
    else if s.percentage < 75 then
      { s with levelAchieved := some AssessmentLevel.A2, canProceedToNext := false }
    else
      { s with levelAchieved := some AssessmentLevel.A2, canProceedToNext := true }
  | 2 =>
    if s.percentage < 25 then
      { s with levelAchieved := some AssessmentLevel.A2, canProceedToNext := false }
    else if s.percentage < 50 then
      { s with levelAchieved := some AssessmentLevel.B1, canProceedToNext := false }
    else if s.percentage < 75 then
      { s with levelAchieved := some AssessmentLevel.B2, canProceedToNext := false }
    else
      { s with levelAchieved := some AssessmentLevel.B2, canProceedToNext := true }
  | 3 =>
    if s.percentage < 25 then
      { s with levelAchieved := some AssessmentLevel.B2, canProceedToNext := false }
    else if s.percentage < 50 then
      { s with levelAchieved := some AssessmentLevel.C1, canProceedToNext := false }
    else
      { s with levelAchieved := some AssessmentLevel.C2, canProceedToNext := false }
  | _ => s

/-- The `testSessionSchema.pre('save')` hook (TestSession.ts lines 91-104):
when at least one answer is recorded it recomputes `score` and the rounded
`percentage` and re-derives level and progression; otherwise it leaves the
document untouched. -/
def preSave (s : TestSession) : TestSession :=
  if 0 < s.answers.length then
    determineLevelAndProgression
      { s with
        score := countCorrect s.answers,
        percentage :=
          if 0 < s.questions.length then
            jsRound100 (countCorrect s.answers) s.questions.length
          else 0 }
  else s

/-- `testSessionSchema.methods.isExpired` (TestSession.ts lines 163-172):
false once COMPLETED, otherwise compares the current clock against
`startTime + timeLimit` minutes.  (`startTime` is a `Date`, always truthy
when present, so the `!this.startTime` guard never fires here.) -/
def isExpired (s : TestSession) (now : Int) : Bool :=
  if s.status = TestStatus.completed then false
  else decide (now > s.startTime + (s.timeLimit : Int) * 60 * 1000)

/-- `userSchema.methods.canTakeTestStep` (User.ts lines 167-184): the
`canTakeTest` lockout short-circuits every step, then each step gates on
`currentLevel`. -/
def canTakeTestStep (u : User) (step : Nat) : Bool :=
  if u.canTakeTest = false then false
  else
    match step with
    | 1 => decide (u.currentLevel = none ∨ u.currentLevel = some AssessmentLevel.A1 ∨
              u.currentLevel = some AssessmentLevel.A2)
    | 2 => decide (u.currentLevel = some AssessmentLevel.A2 ∨ u.currentLevel = some AssessmentLevel.B1 ∨
              u.currentLevel = some AssessmentLevel.B2)
    | 3 => decide (u.currentLevel = some AssessmentLevel.B2 ∨ u.currentLevel = some AssessmentLevel.C1 ∨
              u.currentLevel = some AssessmentLevel.C2)
    | _ => false

/-- `TestSession.findOne({ _id: sessionId, userId, status: IN_PROGRESS })`
used by both `submitAnswer` and `completeTest`. -/
def findActiveSession (sessions : List TestSession) (sid uid : Nat) : Option TestSession :=
  sessions.find? (fun t => decide (t.id = sid ∧ t.userId = uid ∧ t.status = TestStatus.inProgress))

/-- `Question.findById(questionId)`. -/
def findQuestion (questions : List Question) (qid : Nat) : Option Question :=
  questions.find? (fun q => decide (q.id = qid))

/-- `User.findById(userId)`. -/
def findUser (users : List User) (uid : Nat) : Option User :=
  users.find? (fun u => decide (u.id = uid))

/-- `question.options[selectedOption]?.isCorrect || false` from
`submitAnswer`: out-of-range indexing yields `undefined`, coerced to
`false`. -/
def liveCorrect (q : Question) (sel : Nat) : Bool :=
  match q.options.get? sel with
  | some o => o.isCorrect
  | none => false

/-- The `findIndex` / replace-or-push upsert of `submitAnswer` (lines
148-168): replace the first answer with the same `questionId`, else
append. -/
def upsertAnswer : List Answer → Answer → List Answer
  | [], a => [a]
  | x :: xs, a =>
    if x.questionId = a.questionId then a :: xs else x :: upsertAnswer xs a

/-- Modelled from the spec: `completeTest` (controller line 223) calls
`testSession.calculateScore()`, but no file under `src/` defines a
`calculateScore` schema method — only this caller is visible.  Per the
spec's finalize steps (2)-(4) it computes `score` as the count of correct
answers among the recorded tuples, the `percentage` over all assigned
questions, and derives the level/progression outcome.  Note that the
`save()` immediately after it re-runs the `pre('save')` hook, which
recomputes exactly these fields whenever at least one answer is recorded,
so the persisted session is governed by `src/` except in the
zero-answers case. -/
def calculateScore (s : TestSession) : TestSession :=
  determineLevelAndProgression
    { s with
      score := countCorrect s.answers,
      percentage :=
        if 0 < s.questions.length then
          jsRound100 (countCorrect s.answers) s.questions.length
        else 0 }

/-- The finalization data path of `completeTest` (controller lines
218-225): mark COMPLETED with an end timestamp, run `calculateScore`, and
`save()` (which fires the pre-save hook). -/
def finalizeSession (s : TestSession) (now : Int) : TestSession :=
  preSave (calculateScore { s with status := TestStatus.completed, endTime := some now })

/-- `submitAnswer` (controller lines 111-197): look the session up by
(id, user, IN_PROGRESS), look the question up live, require it to belong
to the session, compute correctness from the live question document,
upsert the answer tuple, save, and acknowledge.  No expiry check appears
anywhere on this path. -/
def submitAnswer (sessions : List TestSession) (questions : List Question)
    (sid uid qid sel timeSpent : Nat) :
    Except ApiError (List TestSession × SubmitAck) :=
  match findActiveSession sessions sid uid with
  | none => Except.error ApiError.sessionNotFoundOrNotActive
  | some s =>
    match findQuestion questions qid with
    | none => Except.error ApiError.questionNotFound
    | some q =>
      if s.questions.contains qid then
        let a : Answer :=
          { questionId := qid, selectedOption := sel,
            isCorrect := liveCorrect q sel, timeSpent := timeSpent }
        let saved := preSave { s with answers := upsertAnswer s.answers a }
        Except.ok
          (sessions.map (fun t => if t.id = s.id then saved else t),
           { questionId := qid, isCorrect := liveCorrect q sel,
             totalAnswered := saved.answers.length,
             totalQuestions := saved.questions.length })
      else Except.error ApiError.questionNotInSession

/-- `completeTest` (controller lines 202-295): find the IN_PROGRESS
session, finalize and save it, then re-derive the user's standing from the
controller's own threshold switch (a second copy of the banding logic),
and answer with the user's resulting level and
`canProceedToNext = percentage >= 75`. -/
def completeTest (sessions : List TestSession) (users : List User)
    (sid uid : Nat) (now : Int) :
    Except ApiError (List TestSession × List User × TestOutcome) :=
  match findActiveSession sessions sid uid with
  | none => Except.error ApiError.sessionNotFoundOrNotActive
  | some s =>
    let fin := finalizeSession s now
    let sessions1 := sessions.map (fun t => if t.id = s.id then fin else t)
    match findUser users uid with
    | none =>
      Except.ok (sessions1, users,
        { score := fin.score, percentage := fin.percentage,
          levelAchieved := none,
          canProceedToNext := decide (75 ≤ fin.percentage),
          totalQuestions := fin.questions.length })
    | some u =>
      let u1 :=
        if 75 ≤ fin.percentage then
          match fin.step with
          | 1 => { u with currentLevel := some AssessmentLevel.A2 }
          | 2 => { u with currentLevel := some AssessmentLevel.B2 }
          | 3 => { u with currentLevel := some AssessmentLevel.C2 }
          | _ => u
        else if 50 ≤ fin.percentage then
          match fin.step with
          | 1 => { u with currentLevel := some AssessmentLevel.A2 }
          | 2 => { u with currentLevel := some AssessmentLevel.B2 }
          | 3 => { u with currentLevel := some AssessmentLevel.C1 }
          | _ => u
        else if 25 ≤ fin.percentage then
          match fin.step with
          | 1 => { u with currentLevel := some AssessmentLevel.A1 }
          | 2 => { u with currentLevel := some AssessmentLevel.B1 }
          | 3 => { u with currentLevel := some AssessmentLevel.C1 }
          | _ => u
        else
          if fin.step = 1 then { u with canTakeTest := false } else u
      let u2 := { u1 with lastTestAttempt := some now }
      let users1 := users.map (fun v => if v.id = uid then u2 else v)
      Except.ok (sessions1, users1,
        { score := fin.score, percentage := fin.percentage,
          levelAchieved := u2.currentLevel,
          canProceedToNext := decide (75 ≤ fin.percentage),
          totalQuestions := fin.questions.length })

/-- The IN_PROGRESS lookup for a (user, step) pair used by `startTest`
(`TestSession.findOne({ userId, step, status: IN_PROGRESS })`). -/
def activePred (uid step : Nat) (t : TestSession) : Bool :=
  decide (t.userId = uid ∧ t.step = step ∧ t.status = TestStatus.inProgress)

/-- `findOne` over the (user, step, IN_PROGRESS) secondary index. -/
def findActiveForPair (sessions : List TestSession) (uid step : Nat) : Option TestSession :=
  sessions.find? (activePred uid step)

/-- Number of IN_PROGRESS sessions stored for a (user, step) pair. -/
def inProgressCount (sessions : List TestSession) (uid step : Nat) : Nat :=
  (sessions.filter (activePred uid step)).length

/-- `Question.find({ step, isActive: true })` before the `.limit(20)`. -/
def stagePool (questions : List Question) (step : Nat) : List Question :=
  questions.filter (fun q => decide (q.step = step ∧ q.isActive = true))

/-- The fresh session document `startTest` builds (controller lines
62-72): the drawn question ids, empty answers, a 30-minute budget and
IN_PROGRESS status. -/
def newSession (uid step : Nat) (now : Int) (newId : Nat) (qs : List Question) : TestSession :=
  { id := newId, userId := uid, step := step,
    questions := qs.map (fun q => q.id), answers := [],
    startTime := now, endTime := none, timeLimit := 30,
    status := TestStatus.inProgress, score := 0, percentage := 0,
    levelAchieved := none, canProceedToNext := false }

/-- `startTest` (controller lines 12-106): eligibility gate first, then
idempotent resume of an existing IN_PROGRESS session, then a draw of at
most 20 active questions which fails only when it is empty, then creation
and save of the new session. -/
def startTest (sessions : List TestSession) (users : List User)
    (questions : List Question) (uid step : Nat) (now : Int) (newId : Nat) :
    Except ApiError (List TestSession × StartResult) :=
  match findUser users uid with
  | none => Except.error ApiError.userNotFound
  | some u =>
    if canTakeTestStep u step then
      match findActiveForPair sessions uid step with
      | some existing => Except.ok (sessions, StartResult.resumed existing)
      | none =>
        let qs := (stagePool questions step).take 20
        if qs.length = 0 then Except.error ApiError.noQuestionsAvailable
        else
          let saved := preSave (newSession uid step now newId qs)
          Except.ok (sessions ++ [saved], StartResult.started saved)
    else Except.error ApiError.notEligible

/-- Outcome record of the spec's pure rules engine `classifyOutcome`
(spec section 4.1). -/
structure SpecOutcome where
  certifiedLevel : Option AssessmentLevel
  canProceed : Bool
  retakeAllowed : Bool
deriving DecidableEq, Repr

/-- The spec's `classifyOutcome(stage, percentage)` table (section 4.1),
transcribed from the spec's words for refinement comparison against
`determineLevelAndProgression`: banding [0,25), [25,50), [50,75), at or
above 75 for stages 1 and 2, and the collapsed three-band scheme for
stage 3; `retakeAllowed` is false exactly for a stage-1 score below 25. -/
def classifyOutcomeSpec (stage percentage : Nat) : SpecOutcome :=
  match stage with
  | 1 =>
    if percentage < 25 then
      { certifiedLevel := none, canProceed := false, retakeAllowed := false }
    else if percentage < 50 then
      { certifiedLevel := some AssessmentLevel.A1, canProceed := false, retakeAllowed := true }
    else if percentage < 75 then
      { certifiedLevel := some AssessmentLevel.A2, canProceed := false, retakeAllowed := true }
    else
      { certifiedLevel := some AssessmentLevel.A2, canProceed := true, retakeAllowed := true }
  | 2 =>
    if percentage < 25 then
      { certifiedLevel := some AssessmentLevel.A2, canProceed := false, retakeAllowed := true }
    else if percentage < 50 then
      { certifiedLevel := some AssessmentLevel.B1, canProceed := false, retakeAllowed := true }
    else if percentage < 75 then
      { certifiedLevel := some AssessmentLevel.B2, canProceed := false, retakeAllowed := true }
    else
      { certifiedLevel := some AssessmentLevel.B2, canProceed := true, retakeAllowed := true }
  | 3 =>
    if percentage < 25 then
      { certifiedLevel := some AssessmentLevel.B2, canProceed := false, retakeAllowed := true }
    else if percentage < 50 then
      { certifiedLevel := some AssessmentLevel.C1, canProceed := false, retakeAllowed := true }
    else
      { certifiedLevel := some AssessmentLevel.C2, canProceed := false, retakeAllowed := true }
  | _ => { certifiedLevel := none, canProceed := false, retakeAllowed := true }

/-! Projections used to state facts about controller results. -/

/-- Sessions store after a successful `completeTest` (empty on error). -/
def storedSessions (r : Except ApiError (List TestSession × List User × TestOutcome)) :
    List TestSession :=
  match r with
  | Except.ok (st, _, _) => st
  | Except.error _ => []

/-- Users store after a successful `completeTest` (empty on error). -/
def storedUsers (r : Except ApiError (List TestSession × List User × TestOutcome)) :
    List User :=
  match r with
  | Except.ok (_, us, _) => us
  | Except.error _ => []

/-- Response body of a successful `completeTest`. -/
def responseOutcome (r : Except ApiError (List TestSession × List User × TestOutcome)) :
    Option TestOutcome :=
  match r with
  | Except.ok (_, _, o) => some o
  | Except.error _ => none

/-- Acknowledgement of a successful `submitAnswer`. -/
def ackOf (r : Except ApiError (List TestSession × SubmitAck)) : Option SubmitAck :=
  match r with
  | Except.ok (_, a) => some a
  | Except.error _ => none

/-- Sessions store after a successful `submitAnswer` (empty on error). -/
def submitStore (r : Except ApiError (List TestSession × SubmitAck)) : List TestSession :=
  match r with
  | Except.ok (st, _) => st
  | Except.error _ => []

/-- The freshly created session of a `startTest` that created one. -/
def startedOf (r : Except ApiError (List TestSession × StartResult)) : Option TestSession :=
  match r with
  | Except.ok (_, StartResult.started s) => some s
  | _ => none

/-- The resumed session of a `startTest` that resumed one. -/
def resumedOf (r : Except ApiError (List TestSession × StartResult)) : Option TestSession :=
  match r with
  | Except.ok (_, StartResult.resumed s) => some s
  | _ => none

/-- The error of a failed `startTest`. -/
def startErrOf (r : Except ApiError (List TestSession × StartResult)) : Option ApiError :=
  match r with
  | Except.error e => some e
  | Except.ok _ => none

/-- The sessions store of a successful `startTest` (empty on error). -/
def startStoreOf (r : Except ApiError (List TestSession × StartResult)) : List TestSession :=
  match r with
  | Except.ok (st, _) => st
  | Except.error _ => []

/-! Concrete fixtures for the claim-specific scenarios. -/

/-- Answer lists with `k` correct then `n - k` incorrect tuples over
question ids `1..n`. -/
def mkAnswers (k n : Nat) : List Answer :=
  ((List.range k).map (fun i =>
    { questionId := i + 1, selectedOption := 0, isCorrect := true, timeSpent := 10 })) ++
  ((List.range (n - k)).map (fun i =>
    { questionId := i + k + 1, selectedOption := 1, isCorrect := false, timeSpent := 10 }))

/-- A fresh IN_PROGRESS session for the given user/step over question ids
`1..n` with the given answers recorded. -/
def mkSession (sid uid step n : Nat) (answers : List Answer) : TestSession :=
  { id := sid, userId := uid, step := step,
    questions := (List.range n).map (fun i => i + 1),
    answers := answers, startTime := 0, endTime := none, timeLimit := 30,
    status := TestStatus.inProgress, score := 0, percentage := 0,
    levelAchieved := none, canProceedToNext := false }

/-- Stage-3 session, 20 questions, 11 of them answered correctly (55%). -/
def c1Session : TestSession := mkSession 1 7 3 20 (mkAnswers 11 20)

/-- Stage-3 session, 20 questions, 16 answered correctly (80%). -/
def c1SessionB : TestSession := mkSession 11 7 3 20 (mkAnswers 16 20)

/-- A user standing at B2, eligible for stage 3. -/
def c1User : User :=
  { id := 7, currentLevel := some AssessmentLevel.B2, canTakeTest := true,
    lastTestAttempt := none }

/-- Claim C1 (code_bug): at Stage 3 with 11/20 correct (55%), the session
document stores `levelAchieved = C2` (the model's collapsed at-or-above-50
band), but `completeTest`'s duplicated threshold switch writes `C1` into
the user's standing and reports `levelAchieved = 'C1'` in the response, so
the certified level is not C2 "both in the returned outcome and in
Standing.level" as claimed; moreover at 16/20 (80%) the response reports
`canProceedToNext = true` for the terminal stage even though the stored
session says false. -/
theorem c1_stage3_level_mismatch :
    (finalizeSession c1Session 100).levelAchieved = some AssessmentLevel.C2 ∧
    (finalizeSession c1Session 100).percentage = 55 ∧
    (finalizeSession c1Session 100).canProceedToNext = false ∧
    (storedSessions (completeTest [c1Session] [c1User] 1 7 100)).map
        (fun t => t.levelAchieved) = [some AssessmentLevel.C2] ∧
    (storedUsers (completeTest [c1Session] [c1User] 1 7 100)).map
        (fun u => u.currentLevel) = [some AssessmentLevel.C1] ∧
    (responseOutcome (completeTest [c1Session] [c1User] 1 7 100)).map
        (fun o => o.levelAchieved) = some (some AssessmentLevel.C1) ∧
    (responseOutcome (completeTest [c1Session] [c1User] 1 7 100)).map
        (fun o => o.canProceedToNext) = some false ∧
    (storedSessions (completeTest [c1SessionB] [c1User] 11 7 100)).map
        (fun t => t.canProceedToNext) = [false] ∧
    (responseOutcome (completeTest [c1SessionB] [c1User] 11 7 100)).map
        (fun o => o.canProceedToNext) = some true := by
  decide

/-! Helper lemmas about the scoring pipeline, shared by several claims. -/

theorem det_step (s : TestSession) :
    (determineLevelAndProgression s).step = s.step := by
  unfold determineLevelAndProgression
  split <;> (try split_ifs) <;> rfl

theorem det_percentage (s : TestSession) :
    (determineLevelAndProgression s).percentage = s.percentage := by
  unfold determineLevelAndProgression
  split <;> (try split_ifs) <;> rfl

theorem det_score (s : TestSession) :
    (determineLevelAndProgression s).score = s.score := by
  unfold determineLevelAndProgression
  split <;> (try split_ifs) <;> rfl

theorem det_answers (s : TestSession) :
    (determineLevelAndProgression s).answers = s.answers := by
  unfold determineLevelAndProgression
  split <;> (try split_ifs) <;> rfl

theorem det_questions (s : TestSession) :
    (determineLevelAndProgression s).questions = s.questions := by
  unfold determineLevelAndProgression
  split <;> (try split_ifs) <;> rfl

theorem det_status (s : TestSession) :
    (determineLevelAndProgression s).status = s.status := by
  unfold determineLevelAndProgression
  split <;> (try split_ifs) <;> rfl

/-- `determineLevelAndProgression` agrees with the spec's
`classifyOutcome` table on certified level and proceed-eligibility for the
three real stages. -/
theorem det_matches_spec (s : TestSession)
    (h : s.step = 1 ∨ s.step = 2 ∨ s.step = 3) :
    (determineLevelAndProgression s).levelAchieved
        = (classifyOutcomeSpec s.step s.percentage).certifiedLevel ∧
    (determineLevelAndProgression s).canProceedToNext
        = (classifyOutcomeSpec s.step s.percentage).canProceed := by
  obtain ⟨sid, uid, step, qs, ans, t0, t1, tl, st, sc, pc, la, cp⟩ := s
  rcases h with h | h | h <;>
    (cases h
     unfold determineLevelAndProgression classifyOutcomeSpec
     split_ifs <;> exact ⟨rfl, rfl⟩)

theorem preSave_answers (s : TestSession) : (preSave s).answers = s.answers := by
  unfold preSave
  split
  · rw [det_answers]
  · rfl

theorem preSave_questions (s : TestSession) : (preSave s).questions = s.questions := by
  unfold preSave
  split
  · rw [det_questions]
  · rfl

theorem preSave_step (s : TestSession) : (preSave s).step = s.step := by
  unfold preSave
  split
  · rw [det_step]
  · rfl

theorem preSave_status (s : TestSession) : (preSave s).status = s.status := by
  unfold preSave
  split
  · rw [det_status]
  · rfl

/-- When at least one answer is recorded, the pre-save hook takes its
recompute branch. -/
theorem preSave_of_answered (s : TestSession) (h : 0 < s.answers.length) :
    preSave s =
      determineLevelAndProgression
        { s with
          score := countCorrect s.answers,
          percentage :=
            if 0 < s.questions.length then
              jsRound100 (countCorrect s.answers) s.questions.length
            else 0 } := by
  unfold preSave
  rw [if_pos h]

theorem calculateScore_answers (s : TestSession) :
    (calculateScore s).answers = s.answers := by
  unfold calculateScore
  rw [det_answers]

theorem calculateScore_questions (s : TestSession) :
    (calculateScore s).questions = s.questions := by
  unfold calculateScore
  rw [det_questions]

theorem calculateScore_step (s : TestSession) :
    (calculateScore s).step = s.step := by
  unfold calculateScore
  rw [det_step]

/-- A two-option question whose first option is correct. -/
def c2Question : Question :=
  { id := 10, step := 1,
    options := [{ text := "a", isCorrect := true }, { text := "b", isCorrect := false }],
    isActive := true }

/-- An IN_PROGRESS session started at t = 1000 ms with a 30-minute budget,
assigned exactly question 10, nothing answered yet. -/
def c2Session : TestSession :=
  { id := 2, userId := 7, step := 1, questions := [10], answers := [],
    startTime := 1000, endTime := none, timeLimit := 30,
    status := TestStatus.inProgress, score := 0, percentage := 0,
    levelAchieved := none, canProceedToNext := false }

/-- Claim C2 (code_bug): at `now = startTime + timeLimit + 1 ms` the
session is expired by the model's own `isExpired` and still IN_PROGRESS,
yet `submitAnswer` — which never consults `isExpired` — accepts the
submission, records the answer and acknowledges it instead of failing
with `SessionExpired`. -/
theorem c2_expired_answer_accepted :
    isExpired c2Session (1000 + 30 * 60 * 1000 + 1) = true ∧
    c2Session.status = TestStatus.inProgress ∧
    (ackOf (submitAnswer [c2Session] [c2Question] 2 7 10 0 5)).map
        (fun a => (a.isCorrect, a.totalAnswered)) = some (true, 1) ∧
    (submitStore (submitAnswer [c2Session] [c2Question] 2 7 10 0 5)).map
        (fun t => t.answers.length) = [1] := by
  decide

/-- The error of a failed `completeTest`. -/
def completeErr (r : Except ApiError (List TestSession × List User × TestOutcome)) :
    Option ApiError :=
  match r with
  | Except.error e => some e
  | Except.ok _ => none

/-- A session already finalized: COMPLETED with its outcome stored
(score 14/20, 70%, A2, no proceed). -/
def c3Session : TestSession :=
  { mkSession 3 9 1 20 (mkAnswers 14 20) with
    status := TestStatus.completed, endTime := some 100,
    score := 14, percentage := 70,
    levelAchieved := some AssessmentLevel.A2 }

/-- The owner of `c3Session`, already standing at A2. -/
def c3User : User :=
  { id := 9, currentLevel := some AssessmentLevel.A2, canTakeTest := true,
    lastTestAttempt := some 100 }

/-- Claim C3 counterexample: calling `completeTest` on an
already-COMPLETED attempt does not return the stored outcome — the
IN_PROGRESS-only lookup misses and the call fails with the 404 "not found
or not active" error, so `finalize` is not idempotent as claimed. -/
theorem c3_refinalize_errors :
    completeErr (completeTest [c3Session] [c3User] 3 9 500)
      = some ApiError.sessionNotFoundOrNotActive ∧
    responseOutcome (completeTest [c3Session] [c3User] 3 9 500) = none := by
  decide

/-- Claim C3 (amended): re-finalizing an attempt that is no longer
IN_PROGRESS (in particular an already-COMPLETED one) fails with the
"session not found or not active" error instead of returning the stored
outcome; consequently nothing is recomputed and the User Standing update
is not applied a second time — the error path carries no store mutation at
all. -/
theorem c3_completed_finalize_rejected
    (sessions : List TestSession) (users : List User) (sid uid : Nat) (now : Int)
    (h : ∀ t ∈ sessions, t.id = sid → t.userId = uid → t.status ≠ TestStatus.inProgress) :
    completeTest sessions users sid uid now
      = Except.error ApiError.sessionNotFoundOrNotActive := by
  have hf : findActiveSession sessions sid uid = none := by
    unfold findActiveSession
    rw [List.find?_eq_none]
    intro t ht
    simp only [decide_eq_true_eq, not_and]
    intro h1 h2
    exact h t ht h1 h2
  unfold completeTest
  rw [hf]

/-- Witness for `c3_completed_finalize_rejected` at the concrete
already-COMPLETED session. -/
theorem c3_completed_finalize_rejected_witness :
    completeTest [c3Session] [c3User] 3 9 500
      = Except.error ApiError.sessionNotFoundOrNotActive :=
  c3_completed_finalize_rejected [c3Session] [c3User] 3 9 500 (by decide)

/-- The answer tuple `submitAnswer` builds (`answerData` in the
controller). -/
def answerTuple (qid sel : Nat) (c : Bool) (t : Nat) : Answer :=
  { questionId := qid, selectedOption := sel, isCorrect := c, timeSpent := t }

/-- A session with an answer upserted into its list. -/
def withUpsert (s : TestSession) (a : Answer) : TestSession :=
  { s with answers := upsertAnswer s.answers a }

/-- Characterization of a successful `submitAnswer`: when the session
lookup, the live question lookup and the membership check all pass, the
answer tuple is upserted with correctness taken from the live question
document and the updated session is saved through the pre-save hook. -/
theorem submitAnswer_ok (sessions : List TestSession) (questions : List Question)
    (sid uid qid sel timeSpent : Nat) (s : TestSession) (q : Question)
    (hs : findActiveSession sessions sid uid = some s)
    (hq : findQuestion questions qid = some q)
    (hin : s.questions.contains qid = true) :
    submitAnswer sessions questions sid uid qid sel timeSpent =
      Except.ok
        (sessions.map (fun t => if t.id = s.id then
            preSave (withUpsert s (answerTuple qid sel (liveCorrect q sel) timeSpent)) else t),
         { questionId := qid, isCorrect := liveCorrect q sel,
           totalAnswered :=
             (upsertAnswer s.answers (answerTuple qid sel (liveCorrect q sel) timeSpent)).length,
           totalQuestions := s.questions.length }) := by
  unfold submitAnswer
  simp only [hs, hq]
  rw [if_pos hin]
  simp [withUpsert, answerTuple, preSave_answers, preSave_questions]

/-- A fresh IN_PROGRESS session assigned exactly question 1. -/
def c5Session : TestSession := mkSession 5 7 1 1 []

/-- Question 1 as created: first option correct. -/
def c5QuestionOriginal : Question :=
  { id := 1, step := 1,
    options := [{ text := "right", isCorrect := true }, { text := "wrong", isCorrect := false }],
    isActive := true }

/-- Question 1 after an admin edit moved the correct flag to the second
option. -/
def c5QuestionEdited : Question :=
  { id := 1, step := 1,
    options := [{ text := "right", isCorrect := false }, { text := "wrong", isCorrect := true }],
    isActive := true }

/-- Claim C5 counterexample: the very same attempt and submission
(session, questionId, selectedOption all identical) is graded correct
against the original question store but incorrect after the question was
edited — so the correctness `recordAnswer` computes does depend on
post-start question edits, i.e. there is no snapshot. -/
theorem c5_live_lookup_counterexample :
    (ackOf (submitAnswer [c5Session] [c5QuestionOriginal] 5 7 1 0 4)).map
        (fun a => a.isCorrect) = some true ∧
    (ackOf (submitAnswer [c5Session] [c5QuestionEdited] 5 7 1 0 4)).map
        (fun a => a.isCorrect) = some false := by
  decide

/-- Claim C5 (amended): `submitAnswer` computes correctness from the
question document found in the question store at submit time
(`question.options[selectedOption]?.isCorrect || false`) — the session
snapshots only question ids at start, so an edit between start and
submission changes the recorded correctness, while a tuple already
recorded keeps its stored `isCorrect` (the upsert is the only write to the
answer list). -/
theorem c5_correctness_from_live_question
    (sessions : List TestSession) (questions : List Question)
    (sid uid qid sel timeSpent : Nat) (s : TestSession) (q : Question)
    (hs : findActiveSession sessions sid uid = some s)
    (hq : findQuestion questions qid = some q)
    (hin : s.questions.contains qid = true) :
    submitAnswer sessions questions sid uid qid sel timeSpent =
      Except.ok
        (sessions.map (fun t => if t.id = s.id then
            preSave (withUpsert s (answerTuple qid sel (liveCorrect q sel) timeSpent)) else t),
         { questionId := qid, isCorrect := liveCorrect q sel,
           totalAnswered :=
             (upsertAnswer s.answers (answerTuple qid sel (liveCorrect q sel) timeSpent)).length,
           totalQuestions := s.questions.length }) :=
  submitAnswer_ok sessions questions sid uid qid sel timeSpent s q hs hq hin

/-- Witness for `c5_correctness_from_live_question` at the concrete
store: the acknowledged correctness is the live question's. -/
theorem c5_correctness_from_live_question_witness :
    (ackOf (submitAnswer [c5Session] [c5QuestionOriginal] 5 7 1 0 4)).map
        (fun a => a.isCorrect) = some (liveCorrect c5QuestionOriginal 0) := by
  rw [c5_correctness_from_live_question [c5Session] [c5QuestionOriginal] 5 7 1 0 4
        c5Session c5QuestionOriginal (by decide) (by decide) (by decide)]
  rfl

/-- Out-of-range indexing of the live question's options yields
`undefined`, coerced to `false` by `|| false`. -/
theorem liveCorrect_oob (q : Question) (sel : Nat) (h : q.options.length ≤ sel) :
    liveCorrect q sel = false := by
  unfold liveCorrect
  rw [List.get?_eq_none.mpr h]

/-- The upserted tuple is always present in the resulting answer list. -/
theorem mem_upsertAnswer (xs : List Answer) (a : Answer) : a ∈ upsertAnswer xs a := by
  induction xs with
  | nil => exact List.mem_singleton.mpr rfl
  | cons x xs ih =>
    unfold upsertAnswer
    split
    · exact List.mem_cons_self a xs
    · exact List.mem_cons_of_mem x ih

/-- Claim C10: a `selectedOption` index past the end of the live
question's option list is not rejected — the submission succeeds, the
answer is recorded with `isCorrect = false`, it is stored in the session's
answer list, and it counts toward the acknowledged answered-count. -/
theorem c10_out_of_range_option
    (sessions : List TestSession) (questions : List Question)
    (sid uid qid sel timeSpent : Nat) (s : TestSession) (q : Question)
    (hs : findActiveSession sessions sid uid = some s)
    (hq : findQuestion questions qid = some q)
    (hin : s.questions.contains qid = true)
    (hoob : q.options.length ≤ sel) :
    submitAnswer sessions questions sid uid qid sel timeSpent =
      Except.ok
        (sessions.map (fun t => if t.id = s.id then
            preSave (withUpsert s (answerTuple qid sel false timeSpent)) else t),
         { questionId := qid, isCorrect := false,
           totalAnswered :=
             (upsertAnswer s.answers (answerTuple qid sel false timeSpent)).length,
           totalQuestions := s.questions.length }) ∧
    answerTuple qid sel false timeSpent
      ∈ (preSave (withUpsert s (answerTuple qid sel false timeSpent))).answers := by
  have hl := liveCorrect_oob q sel hoob
  constructor
  · have h := submitAnswer_ok sessions questions sid uid qid sel timeSpent s q hs hq hin
    rw [hl] at h
    exact h
  · rw [preSave_answers]
    exact mem_upsertAnswer s.answers (answerTuple qid sel false timeSpent)

/-- A four-option question (all of them wrong but the first). -/
def c10Question : Question :=
  { id := 1, step := 1,
    options := [{ text := "a", isCorrect := true }, { text := "b", isCorrect := false },
                { text := "c", isCorrect := false }, { text := "d", isCorrect := false }],
    isActive := true }

/-- Witness for `c10_out_of_range_option`: index 5 on the four-option
question is accepted, graded incorrect and counted. -/
theorem c10_out_of_range_option_witness :
    (ackOf (submitAnswer [c5Session] [c10Question] 5 7 1 5 4)).map
        (fun a => (a.isCorrect, a.totalAnswered)) = some (false, 1) := by
  rw [(c10_out_of_range_option [c5Session] [c10Question] 5 7 1 5 4
        c5Session c10Question (by decide) (by decide) (by decide) (by decide)).1]
  rfl

/-- A user locked out by a stage-1 failure after having certified A2. -/
def c8UserA2 : User :=
  { id := 1, currentLevel := some AssessmentLevel.A2, canTakeTest := false,
    lastTestAttempt := none }

/-- A locked-out user standing at B2. -/
def c8UserB2 : User :=
  { id := 2, currentLevel := some AssessmentLevel.B2, canTakeTest := false,
    lastTestAttempt := none }

/-- A user standing at B1 with no lockout. -/
def c8UserB1 : User :=
  { id := 3, currentLevel := some AssessmentLevel.B1, canTakeTest := true,
    lastTestAttempt := none }

/-- Claim C8 counterexample: a standing with level A2 but
`canTakeTest = false` (reachable: certify A2 at stage 1, retake stage 1
and score below 25) is denied stage 2, and a locked-out B2 standing is
denied stage 3 — the stage-1 lockout blocks every stage, contradicting
"true regardless of the canRetake flag". -/
theorem c8_lockout_blocks_upper_stages :
    canTakeTestStep c8UserA2 2 = false ∧ canTakeTestStep c8UserB2 3 = false := by
  decide

/-- Claim C8 (amended): the `canTakeTest` lockout short-circuits every
stage; only when it is clear does the gate depend purely on the certified
level, with stage 2 allowed exactly for levels A2, B1, B2 and stage 3
exactly for B2, C1, C2. -/
theorem c8_eligibility_gate (u : User) :
    (u.canTakeTest = false → ∀ step, canTakeTestStep u step = false) ∧
    (u.canTakeTest = true →
      ((canTakeTestStep u 2 = true) ↔
        (u.currentLevel = some AssessmentLevel.A2 ∨ u.currentLevel = some AssessmentLevel.B1 ∨
         u.currentLevel = some AssessmentLevel.B2)) ∧
      ((canTakeTestStep u 3 = true) ↔
        (u.currentLevel = some AssessmentLevel.B2 ∨ u.currentLevel = some AssessmentLevel.C1 ∨
         u.currentLevel = some AssessmentLevel.C2))) := by
  constructor
  · intro h step
    unfold canTakeTestStep
    rw [if_pos h]
  · intro h
    have hne : ¬(u.canTakeTest = false) := by simp [h]
    unfold canTakeTestStep
    rw [if_neg hne]
    constructor <;> simp [h]

/-- Witness for `c8_eligibility_gate`: the locked-out A2 user is denied
stage 2, the clean B1 user is allowed stage 2. -/
theorem c8_eligibility_gate_witness :
    canTakeTestStep c8UserA2 2 = false ∧ canTakeTestStep c8UserB1 2 = true :=
  ⟨(c8_eligibility_gate c8UserA2).1 rfl 2,
   ((c8_eligibility_gate c8UserB1).2 rfl).1.mpr (Or.inr (Or.inl rfl))⟩

/-- Saving a fresh session (no answers) leaves it unchanged: the pre-save
hook only recomputes when an answer exists. -/
theorem preSave_newSession (uid step : Nat) (now : Int) (newId : Nat) (qs : List Question) :
    preSave (newSession uid step now newId qs) = newSession uid step now newId qs := rfl

/-- The fresh session matches the (user, step, IN_PROGRESS) index
predicate. -/
theorem activePred_newSession (uid step : Nat) (now : Int) (newId : Nat) (qs : List Question) :
    activePred uid step (newSession uid step now newId qs) = true := by
  simp [activePred, newSession]

/-- If the (user, step, IN_PROGRESS) lookup misses, no stored session
matches the pair at all. -/
theorem inProgressCount_eq_zero (sessions : List TestSession) (uid step : Nat)
    (h : findActiveForPair sessions uid step = none) :
    inProgressCount sessions uid step = 0 := by
  unfold findActiveForPair at h
  unfold inProgressCount
  rw [List.filter_eq_nil_iff.mpr (List.find?_eq_none.mp h)]
  rfl

/-- Claim C4 (amended): for an eligible caller, `startTest` both preserves
the at-most-one-IN_PROGRESS-per-(user, stage) invariant and, when an
IN_PROGRESS attempt for the pair already exists, returns exactly that
attempt with the store untouched.  (When the user has meanwhile become
ineligible, the gate — checked first — errors instead; see the
counterexample.) -/
theorem c4_single_active_attempt
    (sessions : List TestSession) (users : List User) (questions : List Question)
    (uid step : Nat) (now : Int) (newId : Nat) (u : User)
    (hu : findUser users uid = some u)
    (he : canTakeTestStep u step = true)
    (hinv : inProgressCount sessions uid step ≤ 1) :
    (∀ e, findActiveForPair sessions uid step = some e →
        startTest sessions users questions uid step now newId
          = Except.ok (sessions, StartResult.resumed e)) ∧
    inProgressCount (startStoreOf (startTest sessions users questions uid step now newId))
        uid step ≤ 1 := by
  unfold startTest
  simp only [hu]
  rw [if_pos he]
  cases hfa : findActiveForPair sessions uid step with
  | some e0 =>
    refine ⟨fun e he' => ?_, ?_⟩
    · cases he'
      rfl
    · simpa [startStoreOf] using hinv
  | none =>
    refine ⟨fun e he' => absurd he' (by simp), ?_⟩
    have hz : inProgressCount sessions uid step = 0 :=
      inProgressCount_eq_zero sessions uid step hfa
    by_cases hql : ((stagePool questions step).take 20).length = 0
    · simp [startStoreOf, inProgressCount, hql]
    · simp only [if_neg hql, startStoreOf, preSave_newSession]
      unfold inProgressCount at hz ⊢
      rw [List.filter_append, List.length_append, hz]
      simp [activePred_newSession]

/-- An IN_PROGRESS stage-1 attempt of user 7 with nothing answered. -/
def c4Session : TestSession := mkSession 4 7 1 20 []

/-- User 7 while still eligible for stage 1. -/
def c4User : User :=
  { id := 7, currentLevel := none, canTakeTest := true, lastTestAttempt := none }

/-- User 7 after certifying B2 through stage 2: no longer eligible for
stage 1, while the stage-1 attempt above is still IN_PROGRESS. -/
def c4IneligibleUser : User :=
  { id := 7, currentLevel := some AssessmentLevel.B2, canTakeTest := true,
    lastTestAttempt := none }

/-- Claim C4 counterexample: an IN_PROGRESS stage-1 attempt exists for the
pair, yet `startTest` errors with the eligibility rejection (the gate runs
before the resume check) instead of returning the existing attempt —
refuting the unconditional "returns that existing attempt ... instead of
creating a new one or erroring". -/
theorem c4_ineligible_resume_errors :
    findActiveForPair [c4Session] 7 1 = some c4Session ∧
    startErrOf (startTest [c4Session] [c4IneligibleUser] [] 7 1 0 99)
      = some ApiError.notEligible ∧
    resumedOf (startTest [c4Session] [c4IneligibleUser] [] 7 1 0 99) = none := by
  decide

/-- Witness for `c4_single_active_attempt`: the eligible user's second
`startTest` resumes the stored IN_PROGRESS attempt unchanged. -/
theorem c4_single_active_attempt_witness :
    startTest [c4Session] [c4User] [] 7 1 0 99
      = Except.ok ([c4Session], StartResult.resumed c4Session) :=
  (c4_single_active_attempt [c4Session] [c4User] [] 7 1 0 99 c4User
      (by decide) (by decide) (by decide)).1 c4Session (by decide)

/-- Claim C7 (amended): the draw is `.limit(20)` — at most 20 active
questions — but the only failure is an *empty* result
(`questions.length === 0`); with a non-empty pool the attempt starts and
its question set has size `min 20 poolSize`, i.e. a pool of 1-19 active
questions starts a smaller test instead of failing with
`InsufficientQuestionPool`. -/
theorem c7_pool_behavior
    (sessions : List TestSession) (users : List User) (questions : List Question)
    (uid step : Nat) (now : Int) (newId : Nat) (u : User)
    (hu : findUser users uid = some u)
    (he : canTakeTestStep u step = true)
    (hfa : findActiveForPair sessions uid step = none) :
    (stagePool questions step = [] →
        startTest sessions users questions uid step now newId
          = Except.error ApiError.noQuestionsAvailable) ∧
    (stagePool questions step ≠ [] →
        startTest sessions users questions uid step now newId
          = Except.ok
              (sessions ++ [newSession uid step now newId ((stagePool questions step).take 20)],
               StartResult.started (newSession uid step now newId ((stagePool questions step).take 20))) ∧
        (newSession uid step now newId ((stagePool questions step).take 20)).questions.length
          = min 20 (stagePool questions step).length) := by
  unfold startTest
  simp only [hu]
  rw [if_pos he]
  simp only [hfa]
  constructor
  · intro hp
    have h0 : ((stagePool questions step).take 20).length = 0 := by
      rw [hp]
      rfl
    rw [if_pos h0]
  · intro hp
    have hql : ¬(((stagePool questions step).take 20).length = 0) := by
      intro h0
      rcases List.take_eq_nil_iff.mp (List.length_eq_zero.mp h0) with h | h
      · exact absurd h (by decide)
      · exact hp h
    rw [if_neg hql]
    refine ⟨rfl, ?_⟩
    simp [newSession]

/-- A user with no prior standing, eligible for stage 1. -/
def c7User : User :=
  { id := 7, currentLevel := none, canTakeTest := true, lastTestAttempt := none }

/-- A two-option active question for the given stage. -/
def mkQuestion (i step : Nat) : Question :=
  { id := i, step := step,
    options := [{ text := "a", isCorrect := true }, { text := "b", isCorrect := false }],
    isActive := true }

/-- A stage-1 pool of only five active questions. -/
def c7Questions : List Question := (List.range 5).map (fun i => mkQuestion (i + 1) 1)

/-- Claim C7 counterexample: with only 5 active stage-1 questions
available (fewer than the fixed count of 20), `startTest` does not fail
with `InsufficientQuestionPool` — it starts an attempt whose question set
has size 5. -/
theorem c7_small_pool_starts :
    c7Questions.length = 5 ∧
    (startedOf (startTest [] [c7User] c7Questions 7 1 0 99)).map
        (fun s => s.questions.length) = some 5 ∧
    startErrOf (startTest [] [c7User] c7Questions 7 1 0 99) = none := by
  decide

/-- Witness for `c7_pool_behavior` at the five-question pool. -/
theorem c7_pool_behavior_witness :
    startTest [] [c7User] c7Questions 7 1 0 99
      = Except.ok ([newSession 7 1 0 99 ((stagePool c7Questions 1).take 20)],
          StartResult.started (newSession 7 1 0 99 ((stagePool c7Questions 1).take 20))) ∧
    (newSession 7 1 0 99 ((stagePool c7Questions 1).take 20)).questions.length
      = min 20 (stagePool c7Questions 1).length := by
  have h := (c7_pool_behavior [] [c7User] c7Questions 7 1 0 99 c7User
      (by decide) (by decide) (by decide)).2 (by decide)
  simpa using h

/-- Claim C9: band boundaries are inclusive at the lower bound — any
stage-1 session whose saved percentage computes to exactly 25 is awarded
A1 (not the below-25 null outcome), and exactly 75 is awarded A2 with
`canProceedToNext = true`. -/
theorem c9_boundary_bands (s : TestSession) (h1 : s.step = 1) (ha : 0 < s.answers.length) :
    ((preSave s).percentage = 25 →
        (preSave s).levelAchieved = some AssessmentLevel.A1 ∧
        (preSave s).canProceedToNext = false) ∧
    ((preSave s).percentage = 75 →
        (preSave s).levelAchieved = some AssessmentLevel.A2 ∧
        (preSave s).canProceedToNext = true) := by
  rw [preSave_of_answered s ha]
  rw [det_percentage]
  obtain ⟨sid, uid, stp, qs, ans, t0, t1, tl, st, sc, pc, la, cp⟩ := s
  dsimp only at h1 ⊢
  subst h1
  unfold determineLevelAndProgression
  dsimp only
  constructor
  · intro hp
    rw [hp]
    norm_num
  · intro hp
    rw [hp]
    norm_num

/-- Stage-1 session with 20 questions of which 5 are answered, all of them
correctly: percentage lands exactly on 25. -/
def c9SessionA : TestSession := mkSession 91 7 1 20 (mkAnswers 5 5)

/-- Stage-1 session with 20 questions, 15 answered correctly and 5 never
answered: percentage lands exactly on 75. -/
def c9SessionB : TestSession := mkSession 92 7 1 20 (mkAnswers 15 15)

/-- Witness for `c9_boundary_bands` at exact 25% and exact 75%. -/
theorem c9_boundary_bands_witness :
    ((preSave c9SessionA).levelAchieved = some AssessmentLevel.A1 ∧
     (preSave c9SessionA).canProceedToNext = false) ∧
    ((preSave c9SessionB).levelAchieved = some AssessmentLevel.A2 ∧
     (preSave c9SessionB).canProceedToNext = true) :=
  ⟨(c9_boundary_bands c9SessionA rfl (by decide)).1 (by decide),
   (c9_boundary_bands c9SessionB rfl (by decide)).2 (by decide)⟩

/-- Claim C6 (amended): for every finalized attempt of a real stage with a
non-empty question set, the saved session's score is the count of correct
recorded tuples (unanswered questions count as incorrect, including the
zero-answers case), its percentage is the JS-rounded
`Math.round(score / totalQuestions * 100)` — not the exact ratio — and its
level/progression outcome is `classifyOutcome(stage, percentage)` applied
to that rounded percentage. -/
theorem c6_finalize_scoring (s : TestSession) (now : Int)
    (hstep : s.step = 1 ∨ s.step = 2 ∨ s.step = 3)
    (hq : 0 < s.questions.length) :
    (finalizeSession s now).score = countCorrect s.answers ∧
    (finalizeSession s now).percentage
        = jsRound100 (countCorrect s.answers) s.questions.length ∧
    (finalizeSession s now).levelAchieved
        = (classifyOutcomeSpec s.step ((finalizeSession s now).percentage)).certifiedLevel ∧
    (finalizeSession s now).canProceedToNext
        = (classifyOutcomeSpec s.step ((finalizeSession s now).percentage)).canProceed ∧
    (finalizeSession s now).status = TestStatus.completed := by
  obtain ⟨sid, uid, stp, qs, ans, t0, t1, tl, st, sc, pc, la, cp⟩ := s
  simp only at hstep hq ⊢
  unfold finalizeSession calculateScore
  simp only
  rw [if_pos hq]
  by_cases ha : 0 < ans.length
  · rw [preSave_of_answered _ (by rw [det_answers]; exact ha)]
    simp only [det_answers, det_questions, det_step, det_status, det_percentage, det_score]
    rw [if_pos hq]
    refine ⟨trivial, rfl, ?_, ?_, trivial⟩
    · exact (det_matches_spec _ hstep).1
    · exact (det_matches_spec _ hstep).2
  · unfold preSave
    rw [if_neg (by rw [det_answers]; exact ha)]
    simp only [det_answers, det_questions, det_step, det_status, det_percentage, det_score]
    refine ⟨trivial, trivial, ?_, ?_, trivial⟩
    · exact (det_matches_spec _ hstep).1
    · exact (det_matches_spec _ hstep).2

/-- A reachable small session: stage 1, only 3 assigned questions (the
pool had fewer than 20 — see C7), one of them answered correctly. -/
def c6Session : TestSession := mkSession 6 9 1 3 (mkAnswers 1 1)

/-- Claim C6 counterexample: with 3 questions and score 1 the stored
percentage is the JS rounding `Math.round(100/3) = 33`, which does not
satisfy the claimed exact equation `percentage = score / totalQuestions *
100` (33 · 3 ≠ 1 · 100). -/
theorem c6_rounded_percentage_counterexample :
    (finalizeSession c6Session 50).score = 1 ∧
    (finalizeSession c6Session 50).percentage = 33 ∧
    ¬((finalizeSession c6Session 50).percentage * c6Session.questions.length
        = (finalizeSession c6Session 50).score * 100) := by
  decide

/-- The spec's own scenario: stage 1, 20 questions, 15 answered correctly,
5 never answered. -/
def c6SessionB : TestSession := mkSession 61 9 1 20 (mkAnswers 15 15)

/-- Witness for `c6_finalize_scoring`: the 15/20 stage-1 example gives
score 15, percentage 75 and proceed-eligibility. -/
theorem c6_finalize_scoring_witness :
    (finalizeSession c6SessionB 50).score = 15 ∧
    (finalizeSession c6SessionB 50).percentage = 75 ∧
    (finalizeSession c6SessionB 50).canProceedToNext = true := by
  have h := c6_finalize_scoring c6SessionB 50 (Or.inl rfl) (by decide)
  exact ⟨h.1.trans (by decide), h.2.1.trans (by decide), (h.2.2.2.1).trans (by decide)⟩

end TestSchool
